import Mathlib

/-!
# Verification of the Nabla builder service (`src/builder/src/build.py`)

A shallow embedding of the build-orchestration pipeline:

* `detect_runtime`     — runtime classification by top-level marker files;
* `inject_scaffold`    — the "bundle wins" scaffold merge;
* `build_image`        — the Dockerfile copy and the build → tag → push
  toolchain sequence;
* `build_function`     — the `/build` request handler with its temporary
  working directory lifecycle;
* `get_function_code`  — the `/get-function-code` handler with its
  ephemeral-container lifecycle (`try`/`finally` with Python's
  exception-replacement semantics).

Directory trees are modelled as finite labelled trees whose directory
nodes carry association lists of named children, mirroring what
`os.listdir` / `os.path.exists` / `shutil.copytree` / `shutil.copy2`
observe and produce.  External toolchain invocations (`subprocess.run`
with `check=True`) are modelled by an environment oracle giving each
command's exit status, and the handlers record the exact sequence of
commands they attempt.
-/

namespace Nabla

/-- A filesystem node: a file with its byte content, or a directory with a
named list of children (the association list mirrors `os.listdir` order;
names within one directory are unique on a real filesystem). -/
inductive FSTree where
  | file (content : String)
  | dir (entries : List (String × FSTree))
deriving Repr

/-- First binding of `name` among a directory's entries — the model of
`os.path.exists(os.path.join(d, name))` (as an `Option` also giving the
subtree found). -/
def lookupEntry (name : String) : List (String × FSTree) → Option FSTree
  | [] => none
  | (n, t) :: rest => if n = name then some t else lookupEntry name rest

/-- Follow a relative path of name components from a root tree. -/
def lookupPath : List String → FSTree → Option FSTree
  | [], t => some t
  | _ :: _, .file _ => none
  | n :: p, .dir es =>
    match lookupEntry n es with
    | none => none
    | some t => lookupPath p t

/-- One iteration of the loop body of `inject_scaffold`
(`build.py` lines 56–67): if `dst` already exists the item is skipped,
otherwise the whole scaffold subtree is copied
(`shutil.copytree` / `shutil.copy2`). -/
def injectStep (acc : List (String × FSTree)) (item : String × FSTree) :
    List (String × FSTree) :=
  match lookupEntry item.1 acc with
  | some _ => acc
  | none => acc ++ [item]

/-- `inject_scaffold(source_dir, runtime)` (`build.py` lines 46–69).
`scaffoldDir = none` models a missing `/app/runtimes/{runtime}` directory,
in which case the merge is a no-op.  Otherwise the top-level scaffold
items are processed in `os.listdir` order by `injectStep`. -/
def inject_scaffold (scaffoldDir : Option (List (String × FSTree)))
    (sourceDir : List (String × FSTree)) : List (String × FSTree) :=
  match scaffoldDir with
  | none => sourceDir
  | some items => items.foldl injectStep sourceDir

/-- Appending entries never changes the result of a lookup that already
succeeds. -/
theorem lookupEntry_append_of_isSome {name : String}
    {es : List (String × FSTree)} (more : List (String × FSTree))
    (h : (lookupEntry name es).isSome) :
    lookupEntry name (es ++ more) = lookupEntry name es := by
  induction es with
  | nil => simp [lookupEntry] at h
  | cons e rest ih =>
    by_cases hn : e.1 = name
    · simp [lookupEntry, hn]
    · simp [lookupEntry, hn] at h ⊢
      exact ih h

/-- One merge step never changes the result of a lookup that already
succeeds. -/
theorem lookupEntry_injectStep_of_isSome {name : String}
    {acc : List (String × FSTree)} (item : String × FSTree)
    (h : (lookupEntry name acc).isSome) :
    lookupEntry name (injectStep acc item) = lookupEntry name acc := by
  unfold injectStep
  cases hfind : lookupEntry item.1 acc with
  | some _ => rfl
  | none => exact lookupEntry_append_of_isSome [item] h

/-- The whole merge fold never changes the result of a lookup that already
succeeds. -/
theorem lookupEntry_foldl_of_isSome {name : String}
    (items : List (String × FSTree)) {acc : List (String × FSTree)}
    (h : (lookupEntry name acc).isSome) :
    lookupEntry name (items.foldl injectStep acc) = lookupEntry name acc := by
  induction items generalizing acc with
  | nil => rfl
  | cons item rest ih =>
    have hstep := lookupEntry_injectStep_of_isSome item h
    have h' : (lookupEntry name (injectStep acc item)).isSome := by
      rw [hstep]; exact h
    simp only [List.foldl_cons]
    rw [ih h', hstep]

/-- A fresh binding appended at the end of a directory resolves when the
name was absent before. -/
theorem lookupEntry_append_single_of_none {name : String}
    {acc : List (String × FSTree)} (t : FSTree)
    (h : lookupEntry name acc = none) :
    lookupEntry name (acc ++ [(name, t)]) = some t := by
  induction acc with
  | nil => simp [lookupEntry]
  | cons e es ih =>
    by_cases hn : e.1 = name
    · simp [lookupEntry, hn] at h
    · simp [lookupEntry, hn] at h ⊢
      exact ih h

/-- After one merge step, the processed item's own name resolves. -/
theorem lookupEntry_injectStep_self_isSome
    (acc : List (String × FSTree)) (item : String × FSTree) :
    (lookupEntry item.1 (injectStep acc item)).isSome := by
  unfold injectStep
  cases hfind : lookupEntry item.1 acc with
  | some t => simp [hfind]
  | none => simp [lookupEntry_append_single_of_none item.2 hfind]

/-- After the merge fold, every scaffold item's name resolves in the
result. -/
theorem lookupEntry_foldl_isSome_of_mem :
    ∀ (items acc : List (String × FSTree)) (item : String × FSTree),
      item ∈ items → (lookupEntry item.1 (items.foldl injectStep acc)).isSome
  | [], _, _, hmem => by cases hmem
  | hd :: rest, acc, item, hmem => by
    rcases List.mem_cons.mp hmem with heq | hmem'
    · rw [heq]
      simp only [List.foldl_cons]
      rw [lookupEntry_foldl_of_isSome rest
        (lookupEntry_injectStep_self_isSome acc hd)]
      exact lookupEntry_injectStep_self_isSome acc hd
    · simp only [List.foldl_cons]
      exact lookupEntry_foldl_isSome_of_mem rest (injectStep acc hd) item hmem'

/-- The merge never changes the result of a top-level lookup that already
succeeds, whether or not the scaffold directory exists. -/
theorem lookupEntry_inject_of_isSome {name : String}
    (scaffoldDir : Option (List (String × FSTree)))
    {sourceDir : List (String × FSTree)}
    (h : (lookupEntry name sourceDir).isSome) :
    lookupEntry name (inject_scaffold scaffoldDir sourceDir) =
      lookupEntry name sourceDir := by
  cases scaffoldDir with
  | none => rfl
  | some items => exact lookupEntry_foldl_of_isSome items h

/-- C1: Scaffold merge never modifies any path that already exists in the
bundle before the merge: for every bundle, every runtime scaffold (present
or absent) and every relative path resolving in the bundle prior to
`inject_scaffold`, the same path resolves to the identical subtree — hence
identical content — afterwards. -/
theorem inject_scaffold_preserves_preexisting
    (scaffoldDir : Option (List (String × FSTree)))
    (sourceDir : List (String × FSTree)) (n : String) (p : List String)
    (t : FSTree) (h : lookupPath (n :: p) (.dir sourceDir) = some t) :
    lookupPath (n :: p) (.dir (inject_scaffold scaffoldDir sourceDir)) =
      some t := by
  simp only [lookupPath] at h ⊢
  cases hfind : lookupEntry n sourceDir with
  | none => rw [hfind] at h; cases h
  | some u =>
    have hsome : (lookupEntry n sourceDir).isSome := by
      rw [hfind]; rfl
    rw [lookupEntry_inject_of_isSome scaffoldDir hsome, hfind]
    rw [hfind] at h
    exact h

/-- Witness for `inject_scaffold_preserves_preexisting`: a bundle file
`app.py` with user content keeps that exact content across a merge with a
scaffold that also supplies an `app.py`. -/
theorem inject_scaffold_preserves_preexisting_witness :
    lookupPath ["app.py"]
        (.dir [("app.py", .file "user code")]) = some (.file "user code") ∧
    lookupPath ["app.py"]
        (.dir (inject_scaffold
          (some [("app.py", .file "scaffold code"),
                 ("wsgi.py", .file "scaffold wsgi")])
          [("app.py", .file "user code")])) = some (.file "user code") :=
  ⟨rfl, inject_scaffold_preserves_preexisting
    (some [("app.py", .file "scaffold code"),
           ("wsgi.py", .file "scaffold wsgi")])
    [("app.py", .file "user code")] "app.py" [] (.file "user code") rfl⟩

/-- A merge fold over items whose names all already resolve is the
identity. -/
theorem foldl_injectStep_of_all_isSome :
    ∀ (items acc : List (String × FSTree)),
      (∀ item ∈ items, (lookupEntry item.1 acc).isSome) →
      items.foldl injectStep acc = acc
  | [], _, _ => rfl
  | hd :: rest, acc, h => by
    have hstep : injectStep acc hd = acc := by
      unfold injectStep
      cases hfind : lookupEntry hd.1 acc with
      | some _ => rfl
      | none =>
        have := h hd (List.mem_cons_self hd rest)
        rw [hfind] at this
        cases this
    simp only [List.foldl_cons, hstep]
    exact foldl_injectStep_of_all_isSome rest acc
      (fun item hmem => h item (List.mem_cons_of_mem hd hmem))

/-- C9: Scaffold merge is idempotent — running `inject_scaffold` twice in
succession with the same scaffold yields exactly the tree produced by
running it once (after the first run every top-level scaffold name already
exists in the bundle, so the second run skips everything). -/
theorem inject_scaffold_idempotent
    (scaffoldDir : Option (List (String × FSTree)))
    (sourceDir : List (String × FSTree)) :
    inject_scaffold scaffoldDir (inject_scaffold scaffoldDir sourceDir) =
      inject_scaffold scaffoldDir sourceDir := by
  cases scaffoldDir with
  | none => rfl
  | some items =>
    simp only [inject_scaffold]
    exact foldl_injectStep_of_all_isSome items (items.foldl injectStep sourceDir)
      (fun item hmem => lookupEntry_foldl_isSome_of_mem items sourceDir item hmem)

/-- C4 counterexample: the scaffold directory `d` contains `f`; the bundle
also has a directory named `d`, but without `f`.  The nested path `d/f`
does not exist in the bundle, yet after the merge it is still absent: the
merge skipped the whole existing directory instead of descending into it
(`build.py` line 61: `if os.path.exists(dst): continue` fires for
directories too). -/
theorem inject_scaffold_skips_existing_dir_children :
    (lookupPath ["d"] (.dir [("d", FSTree.dir [("f", .file "sf")])])).isSome
      = true ∧
    (lookupPath ["d"] (.dir [("d", FSTree.dir [])])).isSome = true ∧
    lookupPath ["d", "f"] (.dir [("d", FSTree.dir [("f", .file "sf")])]) =
      some (.file "sf") ∧
    lookupPath ["d", "f"] (.dir [("d", FSTree.dir [])]) = none ∧
    lookupPath ["d", "f"]
      (.dir (inject_scaffold (some [("d", FSTree.dir [("f", .file "sf")])])
        [("d", FSTree.dir [])])) = none :=
  ⟨rfl, rfl, rfl, rfl, rfl⟩

/-- C4 (amended): when the merge encounters an entry whose relative path
already exists in the bundle — directory or file alike — it skips it
entirely without descending: the bundle's subtree at that name is exactly
preserved and no scaffold entry nested beneath it is copied, even when
that nested path does not exist in the bundle.  Everything below the
existing name is determined by the bundle's pre-existing subtree alone. -/
theorem inject_scaffold_existing_dir_not_descended
    (scaffoldDir : Option (List (String × FSTree)))
    (sourceDir : List (String × FSTree)) (n : String) (t : FSTree)
    (h : lookupEntry n sourceDir = some t) :
    lookupEntry n (inject_scaffold scaffoldDir sourceDir) = some t ∧
    ∀ p : List String,
      lookupPath (n :: p) (.dir (inject_scaffold scaffoldDir sourceDir)) =
        lookupPath p t := by
  have hsome : (lookupEntry n sourceDir).isSome := by rw [h]; rfl
  have hkeep : lookupEntry n (inject_scaffold scaffoldDir sourceDir) = some t := by
    rw [lookupEntry_inject_of_isSome scaffoldDir hsome]; exact h
  refine ⟨hkeep, fun p => ?_⟩
  simp only [lookupPath, hkeep]

/-- Witness for `inject_scaffold_existing_dir_not_descended`: the bundle's
empty directory `d` stays empty; the scaffold's `d/f` is not merged in. -/
theorem inject_scaffold_existing_dir_not_descended_witness :
    lookupEntry "d" (inject_scaffold
        (some [("d", FSTree.dir [("f", .file "sf")])])
        [("d", FSTree.dir [])]) = some (FSTree.dir []) ∧
    lookupPath ["d", "f"]
      (.dir (inject_scaffold (some [("d", FSTree.dir [("f", .file "sf")])])
        [("d", FSTree.dir [])])) = lookupPath ["f"] (FSTree.dir []) :=
  ⟨(inject_scaffold_existing_dir_not_descended
      (some [("d", FSTree.dir [("f", .file "sf")])])
      [("d", FSTree.dir [])] "d" (FSTree.dir []) rfl).1,
   (inject_scaffold_existing_dir_not_descended
      (some [("d", FSTree.dir [("f", .file "sf")])])
      [("d", FSTree.dir [])] "d" (FSTree.dir []) rfl).2 ["f"]⟩

/-! ## Runtime classification (`detect_runtime`, `build.py` lines 22–44) -/

/-- Log levels used by the builder's logger calls. -/
inductive LogLevel where
  | info
  | warning
deriving Repr, DecidableEq

/-- The process-wide runtime detection table (`RUNTIME_PATTERNS`,
`build.py` lines 23–27).  A `dict` iterates in insertion order, so the
declaration order below is the precedence order the code evaluates. -/
def RUNTIME_PATTERNS : List (String × List String) :=
  [("python-flask", ["requirements.txt", "app.py", "wsgi.py"]),
   ("nodejs", ["package.json", "index.js", "server.js"]),
   ("go", ["go.mod", "main.go"])]

/-- The inner loop of `detect_runtime`: `for pattern in patterns: if
pattern in files: return runtime` — true when some marker filename occurs
in the bundle's top-level file list. -/
def patternHit : List String → List String → Bool
  | [], _ => false
  | p :: rest, files => if files.contains p then true else patternHit rest files

/-- The outer loop of `detect_runtime`: first profile (in declaration
order) with a marker hit. -/
def findRuntime : List (String × List String) → List String → Option String
  | [], _ => none
  | (rt, pats) :: rest, files =>
    if patternHit pats files then some rt else findRuntime rest files

/-- `detect_runtime(source_dir)` (`build.py` lines 32–44) over the
top-level file list (`os.listdir`).  The result pairs the returned
runtime identifier with the log record the function emits: an `info` line
on a match, a `warning` line when detection fell back to the default
`python-flask`. -/
def detect_runtime (files : List String) : String × (LogLevel × String) :=
  match findRuntime RUNTIME_PATTERNS files with
  | some rt => (rt, (.info, "Detected runtime: " ++ rt))
  | none =>
    ("python-flask", (.warning, "No runtime detected, defaulting to python-flask"))

/-- A marker hit is exactly a shared element of the marker list and the
file list. -/
theorem patternHit_iff (pats files : List String) :
    patternHit pats files = true ↔ ∃ p ∈ pats, p ∈ files := by
  induction pats with
  | nil => simp [patternHit]
  | cons p rest ih =>
    by_cases hc : p ∈ files
    · simp [patternHit, List.elem_iff.mpr hc, hc]
    · have hcb : files.contains p = false := by
        cases hb : files.contains p with
        | false => rfl
        | true => exact absurd (List.elem_iff.mp hb) hc
      simp [patternHit, hcb, ih, hc]

/-- First-match semantics of the profile scan, stated positionally over
any profile table. -/
theorem findRuntime_eq_of_first_hit :
    ∀ (table : List (String × List String)) (files : List String) (i : Nat)
      (hi : i < table.length),
      (∃ p ∈ (table.get ⟨i, hi⟩).2, p ∈ files) →
      (∀ j (hj : j < i), ∀ p ∈ (table.get ⟨j, Nat.lt_trans hj hi⟩).2, p ∉ files) →
      findRuntime table files = some (table.get ⟨i, hi⟩).1
  | [], _, i, hi, _, _ => absurd hi (Nat.not_lt_zero i)
  | (rt, pats) :: rest, files, 0, _, hhit, _ => by
    simp only [findRuntime, List.get]
    rw [if_pos ((patternHit_iff pats files).mpr hhit)]
  | (rt, pats) :: rest, files, i + 1, hi, hhit, hearlier => by
    have hmiss : patternHit pats files = false := by
      cases hp : patternHit pats files with
      | false => rfl
      | true =>
        rcases (patternHit_iff pats files).mp hp with ⟨p, hp1, hp2⟩
        exact absurd hp2 (hearlier 0 (Nat.succ_pos i) p hp1)
    simp only [findRuntime, hmiss, if_false, List.get]
    exact findRuntime_eq_of_first_hit rest files i (Nat.lt_of_succ_lt_succ hi)
      hhit
      (fun j hj p hp =>
        hearlier (j + 1) (Nat.succ_lt_succ hj) p hp)

/-- C7: if the bundle's top-level file set contains at least one marker of
the runtime declared at position `i` of `RUNTIME_PATTERNS` and no marker
of any runtime declared earlier, classification returns that runtime —
first match in declaration order wins — and it never fails (it is a total
function returning that identifier outright). -/
theorem detect_runtime_first_match (files : List String) (i : Nat)
    (hi : i < RUNTIME_PATTERNS.length)
    (hhit : ∃ p ∈ (RUNTIME_PATTERNS.get ⟨i, hi⟩).2, p ∈ files)
    (hearlier : ∀ j (hj : j < i),
      ∀ p ∈ (RUNTIME_PATTERNS.get ⟨j, Nat.lt_trans hj hi⟩).2, p ∉ files) :
    (detect_runtime files).1 = (RUNTIME_PATTERNS.get ⟨i, hi⟩).1 := by
  unfold detect_runtime
  rw [findRuntime_eq_of_first_hit RUNTIME_PATTERNS files i hi hhit hearlier]

/-- Witness for `detect_runtime_first_match`: a bundle with `go.mod` and
`main.go` (and no python/nodejs marker) classifies as `go`, the profile at
index 2. -/
theorem detect_runtime_first_match_witness :
    (detect_runtime ["go.mod", "main.go"]).1 = "go" :=
  detect_runtime_first_match ["go.mod", "main.go"] 2 (by decide)
    ⟨"go.mod", by decide, by decide⟩
    (by decide)

/-- C8: when no marker filename of any declared profile occurs among the
bundle's top-level files, classification returns the fixed default
`python-flask` and signals the fallback through a side channel — the
emitted `warning` log record — rather than an error: the call still
returns normally with the default identifier. -/
theorem detect_runtime_default_fallback (files : List String)
    (h : ∀ rp ∈ RUNTIME_PATTERNS, ∀ p ∈ rp.2, p ∉ files) :
    detect_runtime files =
      ("python-flask",
       (.warning, "No runtime detected, defaulting to python-flask")) := by
  have hnone : findRuntime RUNTIME_PATTERNS files = none := by
    have : ∀ table : List (String × List String),
        (∀ rp ∈ table, ∀ p ∈ rp.2, p ∉ files) →
        findRuntime table files = none := by
      intro table
      induction table with
      | nil => intro _; rfl
      | cons hd rest ih =>
        intro htab
        have hmiss : patternHit hd.2 files = false := by
          cases hp : patternHit hd.2 files with
          | false => rfl
          | true =>
            rcases (patternHit_iff hd.2 files).mp hp with ⟨p, hp1, hp2⟩
            exact absurd hp2 (htab hd (List.mem_cons_self hd rest) p hp1)
        cases hd with
        | mk rt pats =>
          simp only [findRuntime, hmiss, if_false]
          exact ih (fun rp hrp => htab rp (List.mem_cons_of_mem _ hrp))
    exact this RUNTIME_PATTERNS h
  unfold detect_runtime
  rw [hnone]

/-- Witness for `detect_runtime_default_fallback`: a bundle containing
only `README.md` falls back to `python-flask` with the warning record. -/
theorem detect_runtime_default_fallback_witness :
    detect_runtime ["README.md"] =
      ("python-flask",
       (.warning, "No runtime detected, defaulting to python-flask")) :=
  detect_runtime_default_fallback ["README.md"] (by decide)

/-! ## Image build (`build_image`, `build.py` lines 71–109) -/

/-- A toolchain command attempted through `subprocess.run`, identified by
its docker verb and the image tags it mentions. -/
inductive Cmd where
  | build (tag : String)
  | tag (src dst : String)
  | push (tag : String)
deriving Repr, DecidableEq

/-- The builder's static environment: the configured `REGISTRY_URL`
(read from the process environment at startup, `build.py` line 30), the
per-runtime build descriptor `/app/runtimes/{runtime}/Dockerfile`
(`none` when the file does not exist), and an oracle giving each
toolchain command's exit status (`true` = exit 0; `check=True` raises
`CalledProcessError` otherwise). -/
structure ToolEnv where
  registry_url : String
  dockerfileContent : String → Option String
  runOk : Cmd → Bool

/-- Overwrite-or-create a named entry in a directory — the model of
`shutil.copy2(src, dst)` onto a possibly-existing destination file. -/
def setEntry (name : String) (t : FSTree) :
    List (String × FSTree) → List (String × FSTree)
  | [] => [(name, t)]
  | (n, u) :: rest =>
    if n = name then (name, t) :: rest else (n, u) :: setEntry name t rest

/-- Result of `build_image`: the returned value (`None` on any failure),
the toolchain commands attempted in order, and the build context directory
after the Dockerfile copy. -/
structure BuildOutcome where
  result : Option String
  cmds : List Cmd
  sourceAfter : List (String × FSTree)

/-- `build_image(source_dir, function_name, runtime)` (`build.py` lines
71–109).  `image_name` is derived from the configured `REGISTRY_URL`, the
push registry is the hard-coded `localhost:5001`; the runtime Dockerfile
is copied into the context root unconditionally; then build → (tag when
the two names differ) → push run in sequence, each aborting the rest on
non-zero exit. -/
def build_image (env : ToolEnv) (sourceDir : List (String × FSTree))
    (function_name runtime : String) : BuildOutcome :=
  let image_name := env.registry_url ++ "/" ++ function_name ++ ":latest"
  let push_registry := "localhost:5001"
  match env.dockerfileContent runtime with
  | none => { result := none, cmds := [], sourceAfter := sourceDir }
  | some content =>
    let sourceAfter := setEntry "Dockerfile" (.file content) sourceDir
    let buildCmd := Cmd.build image_name
    if env.runOk buildCmd = false then
      { result := none, cmds := [buildCmd], sourceAfter := sourceAfter }
    else
      let internal_image_name := push_registry ++ "/" ++ function_name ++ ":latest"
      if internal_image_name = image_name then
        let pushCmd := Cmd.push internal_image_name
        if env.runOk pushCmd = false then
          { result := none, cmds := [buildCmd, pushCmd], sourceAfter := sourceAfter }
        else
          { result := some image_name, cmds := [buildCmd, pushCmd],
            sourceAfter := sourceAfter }
      else
        let tagCmd := Cmd.tag image_name internal_image_name
        if env.runOk tagCmd = false then
          { result := none, cmds := [buildCmd, tagCmd], sourceAfter := sourceAfter }
        else
          let pushCmd := Cmd.push internal_image_name
          if env.runOk pushCmd = false then
            { result := none, cmds := [buildCmd, tagCmd, pushCmd],
              sourceAfter := sourceAfter }
          else
            { result := some image_name, cmds := [buildCmd, tagCmd, pushCmd],
              sourceAfter := sourceAfter }

/-- Setting an entry makes that name resolve to the new value, whatever
was there before. -/
theorem lookupEntry_setEntry_self (name : String) (t : FSTree) :
    ∀ es : List (String × FSTree), lookupEntry name (setEntry name t es) = some t
  | [] => by simp [setEntry, lookupEntry]
  | (n, u) :: rest => by
    by_cases hn : n = name
    · simp [setEntry, hn, lookupEntry]
    · simp only [setEntry, hn, if_false, lookupEntry, if_neg hn]
      exact lookupEntry_setEntry_self name t rest

/-- C2 counterexample: with an externally-addressable registry host
distinct from the local `localhost:5001`, a fully successful build pushes
ONLY the local tag; no push of the externally-addressable tag is ever
attempted, although that external reference is what is returned. -/
theorem build_image_pushes_local_tag_cex :
    (build_image
        { registry_url := "registry.example.com:5000",
          dockerfileContent := fun _ => some "FROM python",
          runOk := fun _ => true }
        [] "hello" "python-flask").result =
      some "registry.example.com:5000/hello:latest" ∧
    Cmd.push "localhost:5001/hello:latest" ∈
      (build_image
        { registry_url := "registry.example.com:5000",
          dockerfileContent := fun _ => some "FROM python",
          runOk := fun _ => true }
        [] "hello" "python-flask").cmds ∧
    Cmd.push "registry.example.com:5000/hello:latest" ∉
      (build_image
        { registry_url := "registry.example.com:5000",
          dockerfileContent := fun _ => some "FROM python",
          runOk := fun _ => true }
        [] "hello" "python-flask").cmds := by
  refine ⟨rfl, ?_, ?_⟩ <;> decide

/-- C2 (amended): on full success the build pushes the LOCAL-only tag
`localhost:5001/<name>:latest` — it is the only tag ever pushed — while
the returned image reference is `<REGISTRY_URL>/<name>:latest`, composed
of the externally-addressable registry host and the requested function
name. -/
theorem build_image_success_reference_and_push (env : ToolEnv)
    (sourceDir : List (String × FSTree)) (function_name runtime content : String)
    (hdf : env.dockerfileContent runtime = some content)
    (hok : ∀ c, env.runOk c = true) :
    (build_image env sourceDir function_name runtime).result =
      some (env.registry_url ++ "/" ++ function_name ++ ":latest") ∧
    Cmd.push ("localhost:5001/" ++ function_name ++ ":latest") ∈
      (build_image env sourceDir function_name runtime).cmds ∧
    ∀ t, Cmd.push t ∈ (build_image env sourceDir function_name runtime).cmds →
      t = "localhost:5001/" ++ function_name ++ ":latest" := by
  unfold build_image
  rw [hdf]
  simp only [hok, Bool.true_eq_false, if_false]
  by_cases heq : "localhost:5001" ++ "/" ++ function_name ++ ":latest" =
      env.registry_url ++ "/" ++ function_name ++ ":latest"
  · simp only [heq, if_true]
    refine ⟨by trivial, ?_, ?_⟩
    · rw [show "localhost:5001/" ++ function_name ++ ":latest" =
        "localhost:5001" ++ "/" ++ function_name ++ ":latest" from rfl, heq]
      exact List.mem_cons_of_mem _ (List.mem_cons_self _ _)
    · intro t ht
      rcases List.mem_cons.mp ht with h1 | h1
      · cases h1
      · rcases List.mem_cons.mp h1 with h2 | h2
        · cases h2; rw [← heq]; rfl
        · cases h2
  · simp only [heq, if_false]
    refine ⟨by trivial, ?_, ?_⟩
    · exact List.mem_cons_of_mem _
        (List.mem_cons_of_mem _ (List.mem_cons_self _ _))
    · intro t ht
      rcases List.mem_cons.mp ht with h1 | h1
      · cases h1
      · rcases List.mem_cons.mp h1 with h2 | h2
        · cases h2
        · rcases List.mem_cons.mp h2 with h3 | h3
          · cases h3; rfl
          · cases h3

/-- Witness for `build_image_success_reference_and_push` at the default
configuration `REGISTRY_URL = localhost:5001` (the two hosts coincide). -/
theorem build_image_success_reference_and_push_witness :
    (build_image
        { registry_url := "localhost:5001",
          dockerfileContent := fun _ => some "FROM python",
          runOk := fun _ => true }
        [] "hello" "python-flask").result =
      some ("localhost:5001" ++ "/" ++ "hello" ++ ":latest") ∧
    Cmd.push ("localhost:5001/" ++ "hello" ++ ":latest") ∈
      (build_image
        { registry_url := "localhost:5001",
          dockerfileContent := fun _ => some "FROM python",
          runOk := fun _ => true }
        [] "hello" "python-flask").cmds ∧
    ∀ t, Cmd.push t ∈
      (build_image
        { registry_url := "localhost:5001",
          dockerfileContent := fun _ => some "FROM python",
          runOk := fun _ => true }
        [] "hello" "python-flask").cmds →
      t = "localhost:5001/" ++ "hello" ++ ":latest" :=
  build_image_success_reference_and_push
    { registry_url := "localhost:5001",
      dockerfileContent := fun _ => some "FROM python",
      runOk := fun _ => true }
    [] "hello" "python-flask" "FROM python" rfl (fun _ => rfl)

/-- C5: the toolchain protocol is strictly sequential with no retries —
the attempted command trace never repeats a command — and any step's
non-zero termination aborts the rest of the sequence:
* a failed build attempts no further command (no tag, no push) and the
  function returns `None`;
* after a successful build, a failed tag step (when the two image names
  differ, so the tag step runs) attempts no push and returns `None`;
* a failed push step yields no image reference: the function returns
  `None` whenever the push command's exit status is non-zero. -/
theorem build_image_build_failure_aborts (env : ToolEnv)
    (sourceDir : List (String × FSTree)) (function_name runtime content : String)
    (hdf : env.dockerfileContent runtime = some content) :
    (build_image env sourceDir function_name runtime).cmds.Nodup ∧
    (env.runOk
        (Cmd.build (env.registry_url ++ "/" ++ function_name ++ ":latest")) =
          false →
      (build_image env sourceDir function_name runtime).cmds =
        [Cmd.build (env.registry_url ++ "/" ++ function_name ++ ":latest")] ∧
      (build_image env sourceDir function_name runtime).result = none) ∧
    (env.runOk
        (Cmd.build (env.registry_url ++ "/" ++ function_name ++ ":latest")) =
          true →
      "localhost:5001" ++ "/" ++ function_name ++ ":latest" ≠
        env.registry_url ++ "/" ++ function_name ++ ":latest" →
      env.runOk
        (Cmd.tag (env.registry_url ++ "/" ++ function_name ++ ":latest")
          ("localhost:5001" ++ "/" ++ function_name ++ ":latest")) = false →
      (build_image env sourceDir function_name runtime).cmds =
        [Cmd.build (env.registry_url ++ "/" ++ function_name ++ ":latest"),
         Cmd.tag (env.registry_url ++ "/" ++ function_name ++ ":latest")
           ("localhost:5001" ++ "/" ++ function_name ++ ":latest")] ∧
      (build_image env sourceDir function_name runtime).result = none) ∧
    (env.runOk
        (Cmd.push ("localhost:5001" ++ "/" ++ function_name ++ ":latest")) =
          false →
      (build_image env sourceDir function_name runtime).result = none) := by
  refine ⟨?_, ?_, ?_, ?_⟩
  · unfold build_image
    rw [hdf]
    simp only
    repeat' split
    all_goals simp
  · intro hfail
    unfold build_image
    rw [hdf]
    simp only [hfail, if_true]
    exact ⟨by trivial, by trivial⟩
  · intro hb hne ht
    unfold build_image
    rw [hdf]
    simp only [hb, Bool.true_eq_false, if_false, if_neg hne, ht, if_true]
    exact ⟨by trivial, by trivial⟩
  · intro hp
    unfold build_image
    rw [hdf]
    simp only
    repeat' split
    all_goals simp_all

/-- Witness for `build_image_build_failure_aborts`, one environment per
failing step: a failing build attempts exactly one command; a failing tag
(at a distinct external host) stops after build and tag with no push; a
failing push yields no image reference. -/
theorem build_image_build_failure_aborts_witness :
    ((build_image
        { registry_url := "localhost:5001",
          dockerfileContent := fun _ => some "FROM python",
          runOk := fun _ => false }
        [] "hello" "python-flask").cmds =
      [Cmd.build ("localhost:5001" ++ "/" ++ "hello" ++ ":latest")] ∧
    (build_image
        { registry_url := "localhost:5001",
          dockerfileContent := fun _ => some "FROM python",
          runOk := fun _ => false }
        [] "hello" "python-flask").result = none) ∧
    ((build_image
        { registry_url := "registry.example.com:5000",
          dockerfileContent := fun _ => some "FROM python",
          runOk := fun c => match c with | Cmd.tag _ _ => false | _ => true }
        [] "hello" "python-flask").cmds =
      [Cmd.build ("registry.example.com:5000" ++ "/" ++ "hello" ++ ":latest"),
       Cmd.tag ("registry.example.com:5000" ++ "/" ++ "hello" ++ ":latest")
         ("localhost:5001" ++ "/" ++ "hello" ++ ":latest")] ∧
    (build_image
        { registry_url := "registry.example.com:5000",
          dockerfileContent := fun _ => some "FROM python",
          runOk := fun c => match c with | Cmd.tag _ _ => false | _ => true }
        [] "hello" "python-flask").result = none) ∧
    (build_image
        { registry_url := "registry.example.com:5000",
          dockerfileContent := fun _ => some "FROM python",
          runOk := fun c => match c with | Cmd.push _ => false | _ => true }
        [] "hello" "python-flask").result = none :=
  ⟨(build_image_build_failure_aborts
      { registry_url := "localhost:5001",
        dockerfileContent := fun _ => some "FROM python",
        runOk := fun _ => false }
      [] "hello" "python-flask" "FROM python" rfl).2.1 rfl,
   (build_image_build_failure_aborts
      { registry_url := "registry.example.com:5000",
        dockerfileContent := fun _ => some "FROM python",
        runOk := fun c => match c with | Cmd.tag _ _ => false | _ => true }
      [] "hello" "python-flask" "FROM python" rfl).2.2.1 rfl (by decide) rfl,
   (build_image_build_failure_aborts
      { registry_url := "registry.example.com:5000",
        dockerfileContent := fun _ => some "FROM python",
        runOk := fun c => match c with | Cmd.push _ => false | _ => true }
      [] "hello" "python-flask" "FROM python" rfl).2.2.2 rfl⟩

/-- C10: whenever the runtime's Dockerfile exists, `build_image` copies it
to the context root unconditionally — for EVERY prior content of the
bundle, including a user-supplied `Dockerfile`, the context's `Dockerfile`
afterwards is the runtime's descriptor.  This is the one path in the build
flow where bundle content does not win. -/
theorem build_image_overwrites_bundle_dockerfile (env : ToolEnv)
    (sourceDir : List (String × FSTree)) (function_name runtime content : String)
    (hdf : env.dockerfileContent runtime = some content) :
    lookupEntry "Dockerfile"
      (build_image env sourceDir function_name runtime).sourceAfter =
      some (.file content) := by
  have hafter : (build_image env sourceDir function_name runtime).sourceAfter =
      setEntry "Dockerfile" (.file content) sourceDir := by
    unfold build_image
    rw [hdf]
    simp only
    repeat' split
    all_goals rfl
  rw [hafter]
  exact lookupEntry_setEntry_self _ _ _

/-- Witness for `build_image_overwrites_bundle_dockerfile`: a bundle whose
root already holds a user `Dockerfile` with content `"user dockerfile"`
ends up with the runtime's `"FROM python"` instead. -/
theorem build_image_overwrites_bundle_dockerfile_witness :
    lookupEntry "Dockerfile"
      (build_image
        { registry_url := "localhost:5001",
          dockerfileContent := fun _ => some "FROM python",
          runOk := fun _ => true }
        [("Dockerfile", FSTree.file "user dockerfile")]
        "hello" "python-flask").sourceAfter = some (.file "FROM python") :=
  build_image_overwrites_bundle_dockerfile
    { registry_url := "localhost:5001",
      dockerfileContent := fun _ => some "FROM python",
      runOk := fun _ => true }
    [("Dockerfile", FSTree.file "user dockerfile")]
    "hello" "python-flask" "FROM python" rfl

/-! ## The `/build` handler (`build_function`, `build.py` lines 115–156) -/

/-- The `/build` request: whether the multipart form carries a `file`
part, the `name` form field (`none` when absent — `request.form.get`),
and the uploaded byte stream's parse as a zip archive: `none` models an
unparsable stream (`zipfile.ZipFile` raises `BadZipFile`), `some entries`
the extracted top-level tree. -/
structure BuildReq where
  hasFile : Bool
  name : Option String
  archive : Option (List (String × FSTree))

/-- HTTP-level outcome of the `/build` handler.  `exception` models an
exception escaping the handler body (here `zipfile.BadZipFile`, the
code's realization of the spec's `ArchiveError`). -/
inductive BuildResp where
  | badRequest (msg : String)
  | serverError (msg : String)
  | created (name image runtime : String)
  | exception (msg : String)
deriving Repr

/-- `build_function()` (`build.py` lines 115–156), with the number of
live per-request temporary directories threaded through.  The input
validation happens before any directory is allocated; then
`with tempfile.TemporaryDirectory()` allocates one, the body runs
(extract → `detect_runtime` → `inject_scaffold` → `build_image`), and the
context manager removes the directory on every exit path — normal return
and raised exception alike — which the model expresses by pairing the
response computed by the body with `live - 1`. -/
def build_function (env : ToolEnv)
    (scaffoldDir : Option (List (String × FSTree))) (req : BuildReq)
    (tempDirs : Nat) : BuildResp × Nat :=
  if req.hasFile = false then (.badRequest "No file part", tempDirs)
  else
    match req.name with
    | none => (.badRequest "Function name is required", tempDirs)
    | some function_name =>
      if function_name = "" then
        (.badRequest "Function name is required", tempDirs)
      else
        let live := tempDirs + 1
        let resp : BuildResp :=
          match req.archive with
          | none => .exception "zipfile.BadZipFile"
          | some entries =>
            let runtime := (detect_runtime (entries.map Prod.fst)).1
            let merged := inject_scaffold scaffoldDir entries
            match (build_image env merged function_name runtime).result with
            | none => .serverError "Build failed"
            | some image => .created function_name image runtime
        (resp, live - 1)

/-- C6: the `/build` handler's temporary working directory is gone by the
time the handler returns, on every path — the live-directory count after
the call equals the count before it — and a request whose byte stream is
not a valid archive escapes with the `BadZipFile` exception (the
`ArchiveError` of the spec) while still leaving no directory behind. -/
theorem build_function_temp_dir_cleanup (env : ToolEnv)
    (scaffoldDir : Option (List (String × FSTree))) (req : BuildReq)
    (tempDirs : Nat) :
    (build_function env scaffoldDir req tempDirs).2 = tempDirs ∧
    (∀ fn, req.hasFile = true → req.name = some fn → fn ≠ "" →
      req.archive = none →
      (build_function env scaffoldDir req tempDirs).1 =
        .exception "zipfile.BadZipFile") := by
  constructor
  · unfold build_function
    repeat' split
    all_goals rfl
  · intro fn hfile hname hfn harch
    unfold build_function
    rw [hfile, hname, harch]
    simp only [Bool.true_eq_false, if_false, if_neg hfn]

/-- Witness for `build_function_temp_dir_cleanup`: a request named
`hello` with an unparsable archive keeps the live-directory count at 0
and reports the archive exception. -/
theorem build_function_temp_dir_cleanup_witness :
    (build_function
        { registry_url := "localhost:5001",
          dockerfileContent := fun _ => some "FROM python",
          runOk := fun _ => true }
        none { hasFile := true, name := some "hello", archive := none } 0).2
      = 0 ∧
    (build_function
        { registry_url := "localhost:5001",
          dockerfileContent := fun _ => some "FROM python",
          runOk := fun _ => true }
        none { hasFile := true, name := some "hello", archive := none } 0).1
      = .exception "zipfile.BadZipFile" :=
  ⟨(build_function_temp_dir_cleanup
      { registry_url := "localhost:5001",
        dockerfileContent := fun _ => some "FROM python",
        runOk := fun _ => true }
      none { hasFile := true, name := some "hello", archive := none } 0).1,
   (build_function_temp_dir_cleanup
      { registry_url := "localhost:5001",
        dockerfileContent := fun _ => some "FROM python",
        runOk := fun _ => true }
      none { hasFile := true, name := some "hello", archive := none } 0).2
     "hello" rfl rfl (by simp) rfl⟩

/-! ## The retrieve handler (`get_function_code`, `build.py` lines
158–222) -/

/-- Which docker step of the retrieve flow failed — the identity carried
by the `CalledProcessError` that the handler renders via `str(e)` into
its 500 response. -/
inductive RetrieveErr where
  | create
  | cp
  | rm
deriving Repr, DecidableEq

/-- Environment for one retrieve operation: the container id that
`docker create` prints, and the exit status of each docker step. -/
structure RetrieveEnv where
  containerId : String
  createOk : Bool
  cpOk : Bool
  rmOk : Bool

/-- Outcome of the retrieve handler: the `send_file` response with its
download name, or a 500 carrying the reported failure. -/
inductive RetrieveResp where
  | sendFile (downloadName : String)
  | err500 (e : RetrieveErr)
deriving Repr, DecidableEq

/-- `get_function_code(function_name)` (`build.py` lines 158–222), with
the set of live containers threaded through.  The structure mirrors the
source's nested `try`:

* `docker create` fails → the outer `except` reports it, nothing was
  allocated;
* otherwise the container is live; the inner `try` runs `docker cp` and
  the zip packaging, and its `finally` runs `docker rm` with
  `check=True`.  Python's `finally` semantics apply: if the `finally`
  body raises, that exception REPLACES any in-flight exception and
  discards any pending `return` value.  So an `rm` failure is what the
  outer `except` reports, whether or not `cp` had already failed — and
  the container stays live, since its removal failed. -/
def get_function_code (env : RetrieveEnv) (function_name : String)
    (containers : List String) : RetrieveResp × List String :=
  if env.createOk = false then
    (.err500 .create, containers)
  else
    let live := containers ++ [env.containerId]
    if env.cpOk = false then
      if env.rmOk = false then (.err500 .rm, live)
      else (.err500 .cp, containers)
    else
      if env.rmOk = false then (.err500 .rm, live)
      else (.sendFile (function_name ++ ".zip"), containers)

/-- C3 counterexample: when the filesystem copy fails AND the container
removal also fails, the handler reports the REMOVAL failure, not the
originally observed extraction failure — the `finally`'s
`subprocess.run(["docker", "rm", ...], check=True)` raises and Python
replaces the in-flight `docker cp` error with it. -/
theorem get_function_code_rm_masks_cp_cex :
    (get_function_code
        { containerId := "c1", createOk := true, cpOk := false, rmOk := false }
        "hello" []).1 = .err500 .rm ∧
    (get_function_code
        { containerId := "c1", createOk := true, cpOk := false, rmOk := false }
        "hello" []).1 ≠ .err500 .cp := by
  refine ⟨rfl, ?_⟩
  intro h
  cases h

/-- C3 (amended): the retrieve flow attempts removal of its ephemeral
container on every exit path after creation — whenever the removal
command itself succeeds, the live-container set is restored on all paths,
including a failed filesystem copy — but a failure of the removal itself
propagates and replaces an earlier extraction failure: the removal
failure, not the original one, is what the caller sees. -/
theorem get_function_code_cleanup_and_masking (env : RetrieveEnv)
    (function_name : String) (containers : List String) :
    (env.rmOk = true →
      (get_function_code env function_name containers).2 = containers) ∧
    (env.createOk = true → env.cpOk = false → env.rmOk = false →
      (get_function_code env function_name containers).1 = .err500 .rm) := by
  rcases env with ⟨cid, cok, cpok, rmok⟩
  cases cok <;> cases cpok <;> cases rmok <;>
    simp [get_function_code]

/-- Witness for `get_function_code_cleanup_and_masking`: with a failing
copy step, a succeeding removal leaks nothing, while a failing removal is
what gets reported. -/
theorem get_function_code_cleanup_and_masking_witness :
    (get_function_code
        { containerId := "c1", createOk := true, cpOk := false, rmOk := true }
        "hello" []).2 = ([] : List String) ∧
    (get_function_code
        { containerId := "c1", createOk := true, cpOk := false, rmOk := false }
        "hello" []).1 = .err500 .rm :=
  ⟨(get_function_code_cleanup_and_masking
      { containerId := "c1", createOk := true, cpOk := false, rmOk := true }
      "hello" []).1 rfl,
   (get_function_code_cleanup_and_masking
      { containerId := "c1", createOk := true, cpOk := false, rmOk := false }
      "hello" []).2 rfl rfl rfl⟩

end Nabla
